import Mathlib

/-!
Verification of the Add2CudaCudnn operator declared in
src/include/nbla/cuda/cudnn/function/add2.hpp.

The header gives bodies for the constructor, the destructor, `name()` and
`allowed_array_classes()`.  The member functions `setup_impl`,
`forward_impl` and `backward_impl` are only declared there (their bodies
live in a translation unit that is not part of the given sources), so they
are modelled from the specification, as marked in their doc comments.
Tensor element values are embedded as rationals: the spec's operator is
exact elementwise addition within the numeric type, and ℚ captures
negative, zero and fractional values exactly.
-/

namespace NblaAdd2

/-- The framework `Context` as consumed by the constructor: only its
`device_id` string is read (`std::stoi(ctx.device_id)`). -/
structure Context where
  device_id : String
  deriving DecidableEq

/-- Modelled from the spec: `std::stoi` applied to the device-identifier
string ("fails fast on malformed input").  C++ `stoi` skips leading
whitespace, accepts an optional sign, then requires at least one decimal
digit; it returns `none` here when no conversion can be performed. -/
def stoi (s : String) : Option Int :=
  let cs := s.toList.dropWhile Char.isWhitespace
  let signAndRest : Int × List Char :=
    match cs with
    | '-' :: t => (-1, t)
    | '+' :: t => (1, t)
    | t => (1, t)
  let ds := signAndRest.2.takeWhile Char.isDigit
  if ds.isEmpty then none
  else some (signAndRest.1 * (ds.foldl (fun acc c => acc * 10 + (c.toNat - 48)) 0 : Nat))

/-- Allocation state of one cudnn tensor descriptor owned by the operator. -/
inductive DescState
  | allocated
  | released
  deriving DecidableEq

/-- The operator instance: fields `device_`, the in-place flag recorded by
the base class, the two tensor descriptors created in the constructor, and
the shape the descriptors were configured to by the last successful setup
(`none` right after construction). -/
structure Add2CudaCudnn where
  device_ : Int
  inplace : Bool
  input_desc_ : DescState
  output_desc_ : DescState
  configured : Option (List Nat)
  deriving DecidableEq

/-- Errors that abort construction: `std::stoi` failing on the device id,
or `NBLA_CUDNN_CHECK(cudnnCreateTensorDescriptor(...))` failing. -/
inductive CtorError
  | invalidDeviceId
  | descriptorAllocFailed
  deriving DecidableEq

/-- The constructor `Add2CudaCudnn(ctx, inplace)`: parses the device id
with `std::stoi` in the initializer list, then creates the input and
output tensor descriptors under `NBLA_CUDNN_CHECK`.  The booleans
`allocIn`/`allocOut` stand for the success of the two external
`cudnnCreateTensorDescriptor` calls; a failure of either aborts
construction, so no instance is produced. -/
def construct (ctx : Context) (inplace : Bool) (allocIn allocOut : Bool) :
    Except CtorError Add2CudaCudnn :=
  match stoi ctx.device_id with
  | none => Except.error CtorError.invalidDeviceId
  | some d =>
    if allocIn then
      if allocOut then
        Except.ok { device_ := d, inplace := inplace, input_desc_ := DescState.allocated,
                    output_desc_ := DescState.allocated, configured := none }
      else Except.error CtorError.descriptorAllocFailed
    else Except.error CtorError.descriptorAllocFailed

/-- Error raised by `NBLA_CUDNN_CHECK(cudnnDestroyTensorDescriptor(...))`
in the destructor when the underlying library call fails. -/
inductive DtorError
  | destroyFailed
  deriving DecidableEq

/-- The destructor `~Add2CudaCudnn()`: destroys the input descriptor, then
the output descriptor, each under `NBLA_CUDNN_CHECK`.  The booleans stand
for the success of the two external `cudnnDestroyTensorDescriptor` calls;
normal teardown is both succeeding, in which case the destructor returns
without raising. -/
def destructor (s : Add2CudaCudnn) (okIn okOut : Bool) :
    Except DtorError Add2CudaCudnn :=
  if okIn then
    let s1 := { s with input_desc_ := DescState.released }
    if okOut then Except.ok { s1 with output_desc_ := DescState.released }
    else Except.error DtorError.destroyFailed
  else Except.error DtorError.destroyFailed

/-- `name()` from the header: returns the fixed string. -/
def Add2CudaCudnn.name (op : Add2CudaCudnn) : String :=
  "Add2CudaCudnn"

/-- The process-wide `Cuda` singleton as far as this operator reads it:
its list of array-class names. -/
structure Cuda where
  array_classes : List String
  deriving DecidableEq

/-- `allowed_array_classes()` from the header: returns
`SingletonManager::get<Cuda>()->array_classes()`, reading only the
process-wide singleton, never the instance. -/
def allowed_array_classes (op : Add2CudaCudnn) (cuda : Cuda) : List String :=
  cuda.array_classes

/-- A framework `Variable` (tensor handle) as the operator consumes it:
shape metadata, the value storage and the gradient storage, with element
values embedded as rationals. -/
structure Variable where
  shape : List Nat
  data : List ℚ
  grad : List ℚ
  deriving DecidableEq

/-- Shape-mismatch error raised by setup. -/
inductive SetupError
  | shapeMismatch
  deriving DecidableEq

/-- Modelled from the spec: `setup_impl` (declared in the header, body not
in the given sources).  It "validates that both inputs share compatible
shape" — for this non-broadcast operator, equality of the two input
shapes — then "configures the two shape descriptors to match the tensors'
dimensionality/layout"; on mismatch it "fails with a shape-mismatch
error", producing no new operator state. -/
def setup (op : Add2CudaCudnn) (in0 in1 : Variable) :
    Except SetupError Add2CudaCudnn :=
  if in0.shape = in1.shape then
    Except.ok { op with configured := some in0.shape }
  else Except.error SetupError.shapeMismatch

/-- Modelled from the spec: `forward_impl` (declared in the header, body
not in the given sources).  It "computes output = input0 + input1
elementwise"; this returns the data written to the output tensor. -/
def forward (in0 in1 : Variable) : List ℚ :=
  List.zipWith (fun x y => x + y) in0.data in1.data

/-- Modelled from the spec: `backward_impl` (declared in the header, body
not in the given sources).  "For each input whose propagate_down flag is
set, accumulates (or assigns, depending on accum) the output gradient
directly into that input's gradient storage"; an input whose flag is clear
keeps its gradient storage untouched.  Arguments are the two pre-existing
input gradients, the output gradient, and the per-input flags; the result
is the pair of post-call input gradients. -/
def backward (g0 g1 gout : List ℚ) (pd0 pd1 ac0 ac1 : Bool) :
    List ℚ × List ℚ :=
  ( if pd0 then (if ac0 then List.zipWith (fun x y => x + y) g0 gout else gout) else g0,
    if pd1 then (if ac1 then List.zipWith (fun x y => x + y) g1 gout else gout) else g1 )

/-- The two descriptor resources owned by one operator instance. -/
inductive DescId
  | input
  | output
  deriving DecidableEq

/-- A descriptor-lifecycle event: acquisition or release of one of the two
tensor descriptors. -/
inductive ResEvent
  | create (d : DescId)
  | destroy (d : DescId)
  deriving DecidableEq

/-- Descriptor events issued by the constructor:
`cudnnCreateTensorDescriptor` on the input then the output descriptor. -/
def ctorEvents : List ResEvent :=
  [ResEvent.create DescId.input, ResEvent.create DescId.output]

/-- Descriptor events issued by the destructor:
`cudnnDestroyTensorDescriptor` on the input then the output descriptor. -/
def dtorEvents : List ResEvent :=
  [ResEvent.destroy DescId.input, ResEvent.destroy DescId.output]

/-- A call made on the instance between construction and destruction. -/
inductive MidCall
  | setupCall
  | forwardCall
  | backwardCall
  deriving DecidableEq

/-- Descriptor-lifecycle events of a mid-life call: setup only configures
the already-created descriptors (the spec: "shape descriptors are mutated
only during the setup step"), and forward/backward only use them, so none
of the three creates or destroys a descriptor. -/
def midEvents (c : MidCall) : List ResEvent :=
  []

/-- The descriptor events over a whole instance lifetime: construction,
then any sequence of Setup/Forward/Backward calls, then destruction. -/
def lifecycleTrace (calls : List MidCall) : List ResEvent :=
  ctorEvents ++ calls.flatMap midEvents ++ dtorEvents

/-! ### Helper lemmas -/

/-- Elementwise view of `List.zipWith`: within bounds of the first list,
and with lists of equal length, entry `i` of the zip is `f` of the two
`i`-th entries (read with default `0`). -/
lemma zipWith_get?_of_lt (f : ℚ → ℚ → ℚ) :
    ∀ (l1 l2 : List ℚ) (i : Nat), i < l1.length → i < l2.length →
      (List.zipWith f l1 l2).get? i = some (f (l1.getD i 0) (l2.getD i 0)) := by
  intro l1
  induction l1 with
  | nil => intro l2 i h1 _; exact absurd h1 (Nat.not_lt_zero i)
  | cons a t ih =>
    intro l2 i h1 h2
    cases l2 with
    | nil => exact absurd h2 (Nat.not_lt_zero i)
    | cons b t2 =>
      cases i with
      | zero => simp [List.getD]
      | succ n =>
        have h1n : n < t.length := Nat.lt_of_succ_lt_succ h1
        have h2n : n < t2.length := Nat.lt_of_succ_lt_succ h2
        simpa [List.getD] using ih t2 n h1n h2n

/-- `zipWith` of equal-length lists has the length of the first. -/
lemma zipWith_length_eq (f : ℚ → ℚ → ℚ) (l1 l2 : List ℚ)
    (h : l1.length = l2.length) : (List.zipWith f l1 l2).length = l1.length := by
  simp [List.length_zipWith, h]

/-- Mid-life calls issue no descriptor events at all. -/
lemma flatMap_midEvents_eq_nil (calls : List MidCall) :
    calls.flatMap midEvents = [] := by
  induction calls with
  | nil => rfl
  | cons c t ih => simp [midEvents, ih]

/-! ### Claims -/

/-- C1: for input tensors of equal shape, after a successful Setup,
Forward writes the exact elementwise sum `a + b` to the output: the
output has the inputs' length and every entry is the sum of the
corresponding input entries (exactly, for negative, zero and fractional
values alike). -/
theorem forward_computes_elementwise_sum (op op2 : Add2CudaCudnn) (a b : Variable)
    (hsetup : setup op a b = Except.ok op2)
    (hlen : a.data.length = b.data.length)
    (i : Nat) (hi : i < a.data.length) :
    (forward a b).length = a.data.length ∧
      (forward a b).get? i = some (a.data.getD i 0 + b.data.getD i 0) :=
  ⟨zipWith_length_eq _ _ _ hlen,
   zipWith_get?_of_lt _ a.data b.data i hi (hlen ▸ hi)⟩

/-- Witness for C1 at concrete tensors holding fractional, negative and
zero entries. -/
theorem forward_computes_elementwise_sum_witness :
    (forward { shape := [3], data := [(1:ℚ)/2, -2, 0], grad := [] }
             { shape := [3], data := [(1:ℚ)/4, 2, 5], grad := [] }).length =
        ([(1:ℚ)/2, -2, 0] : List ℚ).length ∧
      (forward { shape := [3], data := [(1:ℚ)/2, -2, 0], grad := [] }
               { shape := [3], data := [(1:ℚ)/4, 2, 5], grad := [] }).get? 0 =
        some ((([(1:ℚ)/2, -2, 0] : List ℚ).getD 0 0) +
              (([(1:ℚ)/4, 2, 5] : List ℚ).getD 0 0)) :=
  forward_computes_elementwise_sum
    { device_ := 0, inplace := false, input_desc_ := DescState.allocated,
      output_desc_ := DescState.allocated, configured := none }
    { device_ := 0, inplace := false, input_desc_ := DescState.allocated,
      output_desc_ := DescState.allocated, configured := some [3] }
    { shape := [3], data := [(1:ℚ)/2, -2, 0], grad := [] }
    { shape := [3], data := [(1:ℚ)/4, 2, 5], grad := [] }
    rfl (by decide) 0 (by decide)

/-- C2: Backward with `propagate_down = [true, true]` and
`accum = [false, false]` assigns the output gradient to both input
gradients exactly, with no scaling and no accumulation of the prior
gradient values. -/
theorem backward_assigns_output_gradient (g0 g1 gout : List ℚ) :
    backward g0 g1 gout true true false false = (gout, gout) :=
  rfl

/-- C3 counterexample: a Backward call with `accum = [true, true]` but
`propagate_down = [false, false]` leaves input 0's gradient at its prior
value `[1]`, not at `[1] + [2] = [3]` as the claim, quantified over every
such call, requires. -/
theorem backward_accumulate_counterexample :
    (backward [(1:ℚ)] [(1:ℚ)] [(2:ℚ)] false false true true).1 ≠
      List.zipWith (fun x y => x + y) [(1:ℚ)] [(2:ℚ)] := by
  have h1 : (backward [(1:ℚ)] [(1:ℚ)] [(2:ℚ)] false false true true).1 = [(1:ℚ)] := rfl
  rw [h1]
  intro h
  have h2 : (1:ℚ) = 1 + 2 := by
    simpa using congrArg (fun l => l.getD 0 0) h
  norm_num at h2

/-- C3 (amended): Backward with `propagate_down = [true, true]` and
`accum = [true, true]` leaves the input gradients at `g0 + grad_out` and
`g1 + grad_out` elementwise. -/
theorem backward_accumulates_output_gradient (g0 g1 gout : List ℚ) :
    backward g0 g1 gout true true true true =
      (List.zipWith (fun x y => x + y) g0 gout,
       List.zipWith (fun x y => x + y) g1 gout) :=
  rfl

/-- C4: Backward with `propagate_down = [true, false]` leaves input 1's
gradient storage completely unchanged, whatever the accumulation flags. -/
theorem backward_selective_propagation (g0 g1 gout : List ℚ) (ac0 ac1 : Bool) :
    (backward g0 g1 gout true false ac0 ac1).2 = g1 :=
  rfl

/-- C5: construction fails (returning an error, producing no instance)
whenever the device-identifier string cannot be parsed as an integer, and
also whenever either descriptor allocation fails. -/
theorem construct_fails_on_bad_device_or_alloc :
    (∀ (ctx : Context) (ip aIn aOut : Bool), stoi ctx.device_id = none →
        construct ctx ip aIn aOut = Except.error CtorError.invalidDeviceId) ∧
      (∀ (ctx : Context) (ip aIn aOut : Bool), aIn = false ∨ aOut = false →
        ∀ op : Add2CudaCudnn, construct ctx ip aIn aOut ≠ Except.ok op) := by
  constructor
  · intro ctx ip aIn aOut h
    simp [construct, h]
  · intro ctx ip aIn aOut h op hok
    unfold construct at hok
    cases hs : stoi ctx.device_id with
    | none => rw [hs] at hok; exact Except.noConfusion hok
    | some d =>
      rw [hs] at hok
      rcases h with h1 | h1 <;> subst h1
      · simp at hok
      · cases aIn <;> simp_all

/-- Witness for C5: an unparsable device id is rejected, and a failed
input-descriptor allocation prevents any instance from being returned. -/
theorem construct_fails_witness :
    construct { device_id := "gpu" } false true true =
        Except.error CtorError.invalidDeviceId ∧
      construct { device_id := "0" } false false true ≠
        Except.ok { device_ := 0, inplace := false, input_desc_ := DescState.allocated,
                    output_desc_ := DescState.allocated, configured := none } :=
  ⟨construct_fails_on_bad_device_or_alloc.1 { device_id := "gpu" } false true true (by decide),
   construct_fails_on_bad_device_or_alloc.2 { device_id := "0" } false false true
     (Or.inl rfl)
     { device_ := 0, inplace := false, input_desc_ := DescState.allocated,
       output_desc_ := DescState.allocated, configured := none }⟩

/-- C6: over any instance lifetime — construction, then any sequence of
Setup/Forward/Backward calls (including none at all), then destruction —
each of the two descriptors is created exactly once and destroyed exactly
once: no leak and no double-free. -/
theorem descriptors_paired_acquire_release (calls : List MidCall) (d : DescId) :
    (lifecycleTrace calls).count (ResEvent.create d) = 1 ∧
      (lifecycleTrace calls).count (ResEvent.destroy d) = 1 := by
  have h : lifecycleTrace calls = ctorEvents ++ dtorEvents := by
    simp [lifecycleTrace, flatMap_midEvents_eq_nil]
  rw [h]
  cases d <;> exact ⟨by decide, by decide⟩

/-- C7: under normal teardown (both underlying destroy calls succeed) the
destructor returns without raising, with both shape descriptors
released. -/
theorem destructor_releases_both_no_throw (s : Add2CudaCudnn) :
    destructor s true true =
      Except.ok { s with input_desc_ := DescState.released,
                         output_desc_ := DescState.released } :=
  rfl

/-- C8: Setup on inputs of incompatible shapes raises the shape-mismatch
error and yields no new operator state, and on the very same (uncorrupted)
operator a subsequent Setup with compatible shapes succeeds. -/
theorem setup_shape_mismatch_recoverable (op : Add2CudaCudnn) (a b a2 b2 : Variable)
    (h : a.shape ≠ b.shape) (h2 : a2.shape = b2.shape) :
    setup op a b = Except.error SetupError.shapeMismatch ∧
      setup op a2 b2 = Except.ok { op with configured := some a2.shape } := by
  constructor
  · simp [setup, h]
  · simp [setup, h2]

/-- Witness for C8: a mismatched Setup fails, then a corrected Setup on
the same operator succeeds. -/
theorem setup_shape_mismatch_recoverable_witness :
    setup { device_ := 0, inplace := false, input_desc_ := DescState.allocated,
            output_desc_ := DescState.allocated, configured := none }
          { shape := [2], data := [1, 1], grad := [] }
          { shape := [3], data := [1, 1, 1], grad := [] } =
        Except.error SetupError.shapeMismatch ∧
      setup { device_ := 0, inplace := false, input_desc_ := DescState.allocated,
              output_desc_ := DescState.allocated, configured := none }
            { shape := [2], data := [1, 1], grad := [] }
            { shape := [2], data := [2, 2], grad := [] } =
        Except.ok { device_ := 0, inplace := false, input_desc_ := DescState.allocated,
                    output_desc_ := DescState.allocated, configured := some [2] } :=
  setup_shape_mismatch_recoverable
    { device_ := 0, inplace := false, input_desc_ := DescState.allocated,
      output_desc_ := DescState.allocated, configured := none }
    { shape := [2], data := [1, 1], grad := [] }
    { shape := [3], data := [1, 1, 1], grad := [] }
    { shape := [2], data := [1, 1], grad := [] }
    { shape := [2], data := [2, 2], grad := [] }
    (by decide) (by decide)

/-- C9: whatever the context string and in-place flag an instance was
constructed with, `name()` returns exactly "Add2CudaCudnn"; being a pure
constant it returns the same string on every call. -/
theorem name_is_fixed (ctx : Context) (ip aIn aOut : Bool) (op : Add2CudaCudnn)
    (h : construct ctx ip aIn aOut = Except.ok op) :
    op.name = "Add2CudaCudnn" :=
  rfl

/-- Witness for C9 on an instance produced by a concrete construction. -/
theorem name_is_fixed_witness :
    Add2CudaCudnn.name
        { device_ := 0, inplace := false, input_desc_ := DescState.allocated,
          output_desc_ := DescState.allocated, configured := none } = "Add2CudaCudnn" :=
  name_is_fixed { device_id := "0" } false true true
    { device_ := 0, inplace := false, input_desc_ := DescState.allocated,
      output_desc_ := DescState.allocated, configured := none }
    rfl

/-- C10: `allowed_array_classes()` returns exactly the process-wide Cuda
singleton's array-class list, so any two instances — whatever their
construction arguments — report the identical list, and the result does
not depend on (nor change) any per-instance state. -/
theorem allowed_array_classes_from_singleton (op1 op2 : Add2CudaCudnn) (cuda : Cuda) :
    allowed_array_classes op1 cuda = cuda.array_classes ∧
      allowed_array_classes op1 cuda = allowed_array_classes op2 cuda :=
  ⟨rfl, rfl⟩

end NblaAdd2
